import Mathlib

/-!
Shallow embedding of the vue-comments widget (970Design/vue-comments).

The repository is a Vue single-file-component comment widget in two main
variants:

* the full widget (`src/unnamed/part_001`): server-rendered comment markup,
  an `order` prop, reCAPTCHA v3 bot mitigation, and reply-target tracking;
* the simple widget (`src/components/VueComments.vue`): structured comment
  list, no bot mitigation, fixed parent field.

Each async handler is embedded as a pure state-transition function.  The
network is an explicit environment value: every `fetch` call's eventual
response (network failure / non-success status / success, with the body's
JSON parse either succeeding or throwing) is an input, and each function
returns the new component state together with the ordered list of requests
it issued.  `await` sequencing in the source becomes strict sequential
composition here.  `console.error` calls are modelled by appending to a
`log` field.  JavaScript string truthiness (`""` is falsy) is modelled
explicitly by `jsTruthy` / `jsOrString`.
-/

/-- JavaScript's `String.prototype.toUpperCase()` (for the ASCII strings
the widget feeds it), modelled character by character. -/
def jsToUpperCase (s : String) : String :=
  ⟨s.data.map Char.toUpper⟩

/-- JavaScript truthiness of a nullable string: `null`/`undefined` and the
empty string are falsy. -/
def jsTruthy (o : Option String) : Bool :=
  match o with
  | some s => !s.isEmpty
  | none => false

/-- JavaScript `o || d` for a nullable string `o` and default `d`:
the default is taken when `o` is null/undefined or the empty string. -/
def jsOrString (o : Option String) (d : String) : String :=
  match o with
  | some s => if s.isEmpty then d else s
  | none => d

/-- A JSON scalar as it appears in the submission payload: the `parent`
field is either the string read from the form or the number `0`
(from `formData.get(...) || 0`). -/
inductive JsonVal where
  | str (s : String)
  | num (n : Int)
deriving Repr, DecidableEq

namespace HC

/-! ## Full widget: `src/unnamed/part_001` -/

/-- Component props (part_001 lines 5-23).  `order` is the prop value after
Vue applies the declared default, see `vueOrderProp`. -/
structure Props where
  post_id : String
  endpoint : String
  api_key : String
  order : String
deriving Repr, DecidableEq

/-- Vue's prop resolution for `order`: the declared default `'DESC'` is used
when the embedding page supplies no value (part_001 lines 18-22). -/
def vueOrderProp (supplied : Option String) : String :=
  supplied.getD "DESC"

/-- The `order` prop validator (part_001 line 21):
`['ASC', 'DESC'].includes(value.toUpperCase())`. -/
def orderValidator (value : String) : Bool :=
  jsToUpperCase value == "ASC" || jsToUpperCase value == "DESC"

/-- Body of a successful list response: `{ count, rendered }`
(consumed at part_001 lines 94, 106-113). -/
structure CommentsResponse where
  count : Nat
  rendered : String
deriving Repr, DecidableEq

/-- The active reply target (part_001 lines 186-189). -/
structure ReplyTarget where
  id : String
  replyTo : String
deriving Repr, DecidableEq

/-- reCAPTCHA configuration fetched from the collaborator
(part_001 line 30). -/
structure RecaptchaConfig where
  enabled : Bool
  site_key : String
deriving Repr, DecidableEq

/-- The reactive state of the component (part_001 lines 25-31), plus a `log`
field modelling the sequence of `console.error` diagnostics. -/
structure HCState where
  commentsData : Option CommentsResponse
  loading : Bool
  submitting : Bool
  message : String
  replyingTo : Option ReplyTarget
  recaptchaConfig : RecaptchaConfig
  recaptchaInstance : Bool
  log : List String
deriving Repr, DecidableEq

/-- The submission payload built at part_001 lines 122-127 and 135:
`JSON.stringify` is injective on this record, so the request body is kept
in structured form (a `recaptcha_token` of `none` means the key is absent,
exactly as `JSON.stringify` omits it when never assigned). -/
structure CommentData where
  author_name : String
  author_email : String
  content : String
  parent : JsonVal
  recaptcha_token : Option String
deriving Repr, DecidableEq

/-- An HTTP request issued via `fetch`. -/
structure Request where
  method : String
  url : String
  headers : List (String × String)
  body : Option CommentData
deriving Repr, DecidableEq

/-- URL of the create endpoint (part_001 line 144). -/
def createUrl (p : Props) : String :=
  p.endpoint ++ "/wp-json/headless-comments/v1/posts/" ++ p.post_id ++ "/comments"

/-- `const orderParam = props.order ? props.order.toUpperCase() : 'DESC'`
(part_001 line 83); the empty string is the one falsy string. -/
def orderParam (order : String) : String :=
  if order.isEmpty then "DESC" else jsToUpperCase order

/-- URL of the list endpoint including the order parameter
(part_001 line 85). -/
def listUrl (p : Props) : String :=
  createUrl p ++ "?order=" ++ orderParam p.order

/-- URL of the reCAPTCHA config endpoint (part_001 line 37). -/
def configUrl (p : Props) : String :=
  p.endpoint ++ "/wp-json/headless-comments/v1/recaptcha/config"

/-- The GET request sent by `fetchComments` (part_001 lines 84-91). -/
def listRequest (p : Props) : Request :=
  { method := "GET", url := listUrl p
    headers := [("X-API-Key", p.api_key)], body := none }

/-- The GET request sent by `fetchRecaptchaConfig` (part_001 lines 36-43). -/
def configRequest (p : Props) : Request :=
  { method := "GET", url := configUrl p
    headers := [("X-API-Key", p.api_key)], body := none }

/-- Possible outcomes of awaiting a list-endpoint fetch: network failure
(the `fetch` promise rejects), a non-success status, or a success whose
body either parses as a `CommentsResponse` or makes `response.json()`
throw (`ok none`). -/
inductive ListResp where
  | netFail
  | notOk (status : Nat) (statusText : String)
  | ok (body : Option CommentsResponse)
deriving Repr, DecidableEq

/-- `fetchComments` (part_001 lines 80-103): sets `loading`, issues the GET,
stores the body on success, logs on a non-success status or a thrown error,
and clears `loading` in `finally`. -/
def fetchComments (p : Props) (s : HCState) (r : ListResp) : HCState × List Request :=
  let s1 : HCState := { s with loading := true }
  let s2 : HCState :=
    match r with
    | .ok (some body) => { s1 with commentsData := some body }
    | .ok none => { s1 with log := s1.log ++ ["Error fetching comments:"] }
    | .notOk status statusText =>
        { s1 with log := s1.log ++
            ["Failed to fetch comments: " ++ toString status ++ " " ++ statusText] }
    | .netFail => { s1 with log := s1.log ++ ["Error fetching comments:"] }
  ({ s2 with loading := false }, [listRequest p])

/-- Possible outcomes of the reCAPTCHA config fetch (part_001 lines 34-61):
network failure, a silently-ignored non-success status, a success whose
`json()` throws, or a parsed config together with whether the subsequent
`load(site_key)` succeeded. -/
inductive ConfigResp where
  | netFail
  | notOk (status : Nat)
  | okBad
  | ok (cfg : RecaptchaConfig) (loadOk : Bool)
deriving Repr, DecidableEq

/-- `fetchRecaptchaConfig` (part_001 lines 34-61): on success stores the
config and, when `enabled` and `site_key` is truthy, attempts to load the
reCAPTCHA client (a load failure is logged and leaves the instance null);
a non-success status is ignored; thrown errors are logged. -/
def fetchRecaptchaConfig (p : Props) (s : HCState) (r : ConfigResp) :
    HCState × List Request :=
  let s2 : HCState :=
    match r with
    | .ok cfg loadOk =>
        let s1 : HCState := { s with recaptchaConfig := cfg }
        if cfg.enabled && !cfg.site_key.isEmpty then
          if loadOk then { s1 with recaptchaInstance := true }
          else { s1 with log := s1.log ++ ["Error loading reCAPTCHA:"] }
        else s1
    | .okBad => { s with log := s.log ++ ["Error fetching reCAPTCHA config:"] }
    | .notOk _ => s
    | .netFail => { s with log := s.log ++ ["Error fetching reCAPTCHA config:"] }
  (s2, [configRequest p])

/-- `getRecaptchaToken` (part_001 lines 64-77): returns null — with no
side effect — when bot mitigation is disabled or the client instance is
null (the early return before the `try`); otherwise
`execute('submit_comment')` either resolves with a token
(`execToken = some t`) or throws (`execToken = none`), and the catch
branch logs `console.error('Error getting reCAPTCHA token:')` before
returning null.  The second component is the list of diagnostics the call
appends to the console. -/
def getRecaptchaToken (cfg : RecaptchaConfig) (inst : Bool)
    (execToken : Option String) : Option String × List String :=
  if !cfg.enabled || !inst then (none, [])
  else
    match execToken with
    | some t => (some t, [])
    | none => (none, ["Error getting reCAPTCHA token:"])

/-- Fixed local failure text set when token acquisition fails
(part_001 line 137). -/
def recaptchaFailText : String := "Failed to verify reCAPTCHA. Please try again."

/-- Generic fallback for submission errors (part_001 lines 169, 172). -/
def submitErrorText : String := "Error submitting comment. Please try again."

/-- Default confirmation when the server supplies no message
(part_001 line 157). -/
def submitSuccessText : String := "Comment submitted successfully!"

/-- Body of a successful create response (consumed at part_001
lines 156-164): an optional `message` and the truthiness of `approved`. -/
structure SubmitResult where
  message : Option String
  approved : Bool
deriving Repr, DecidableEq

/-- Body of a non-success create response (part_001 lines 168-169). -/
structure ErrorBody where
  message : Option String
deriving Repr, DecidableEq

/-- Possible outcomes of awaiting the create-endpoint fetch: network
failure, or a success / non-success response whose JSON body either parses
or makes `json()` throw (`none`). -/
inductive CreateResp where
  | netFail
  | ok (body : Option SubmitResult)
  | notOk (body : Option ErrorBody)
deriving Repr, DecidableEq

/-- Environment of one `submitComment` call: the token the reCAPTCHA client
would produce, the create endpoint's response, and the list endpoint's
response for the refetch triggered on auto-approval. -/
structure SubmitEnv where
  execToken : Option String
  createResp : CreateResp
  listResp : ListResp
deriving Repr, DecidableEq

/-- Result of one `submitComment` call: the new state, the requests issued
in order, and whether `event.target.reset()` ran. -/
structure SubmitOutcome where
  state : HCState
  requests : List Request
  formReset : Bool
deriving Repr, DecidableEq

/-- The POST request sent by `submitComment` (part_001 lines 143-153). -/
def createRequest (p : Props) (cd : CommentData) : Request :=
  { method := "POST", url := createUrl p
    headers := [("Content-Type", "application/json"), ("X-API-Key", p.api_key)]
    body := some cd }

/-- The fetch-and-handle-response part of `submitComment`
(part_001 lines 143-177): issues the POST; on success sets the message
(`result.message || default`), resets the form, clears the reply target and
refetches when `result.approved` is truthy; on a non-success status sets
`error.message || fallback`; a thrown error (network failure or `json()`
throwing) is caught, logged, and sets the generic fallback; `finally`
clears `submitting`. -/
def submitSend (p : Props) (s : HCState) (cd : CommentData) (env : SubmitEnv) :
    SubmitOutcome :=
  let req := createRequest p cd
  match env.createResp with
  | .netFail =>
      { state := { s with
          message := submitErrorText
          log := s.log ++ ["Submit error:"]
          submitting := false }
        requests := [req]
        formReset := false }
  | .ok none =>
      { state := { s with
          message := submitErrorText
          log := s.log ++ ["Submit error:"]
          submitting := false }
        requests := [req]
        formReset := false }
  | .ok (some result) =>
      let s1 : HCState := { s with
        message := jsOrString result.message submitSuccessText
        replyingTo := none }
      if result.approved then
        let fr := fetchComments p s1 env.listResp
        { state := { fr.1 with submitting := false }
          requests := req :: fr.2
          formReset := true }
      else
        { state := { s1 with submitting := false }
          requests := [req]
          formReset := true }
  | .notOk none =>
      { state := { s with
          message := submitErrorText
          log := s.log ++ ["Submit error:"]
          submitting := false }
        requests := [req]
        formReset := false }
  | .notOk (some err) =>
      { state := { s with
          message := jsOrString err.message submitErrorText
          submitting := false }
        requests := [req]
        formReset := false }

/-- The values `new FormData(event.target)` yields for the four named form
controls (part_001 lines 267-284). -/
structure FormFields where
  author_name : String
  author_email : String
  content : String
  comment_parent : String
deriving Repr, DecidableEq

/-- `formData.get('comment_parent') || 0` (part_001 line 126): the string
from the hidden input, or the number `0` when it is missing or empty. -/
def parentField (comment_parent : String) : JsonVal :=
  if comment_parent.isEmpty then .num 0 else .str comment_parent

/-- `submitComment` (part_001 lines 116-177): sets `submitting`, clears the
message, builds the payload from the form, and — when bot mitigation is
enabled — awaits `getRecaptchaToken` (whose console diagnostics land in the
log), then attaches the token or aborts locally with `recaptchaFailText`
and no request; otherwise proceeds to `submitSend`. -/
def submitComment (p : Props) (s0 : HCState) (form : FormFields)
    (env : SubmitEnv) : SubmitOutcome :=
  let s : HCState := { s0 with submitting := true, message := "" }
  let cd : CommentData :=
    { author_name := form.author_name, author_email := form.author_email
      content := form.content, parent := parentField form.comment_parent
      recaptcha_token := none }
  if s.recaptchaConfig.enabled then
    let tr := getRecaptchaToken s.recaptchaConfig s.recaptchaInstance env.execToken
    let s1 : HCState := { s with log := s.log ++ tr.2 }
    match tr.1 with
    | some tok => submitSend p s1 { cd with recaptcha_token := some tok } env
    | none =>
        { state := { s1 with message := recaptchaFailText, submitting := false }
          requests := [], formReset := false }
  else
    submitSend p s cd env

/-- Whether a `submitComment` call gets past the token gate: bot mitigation
is disabled, or a token is obtained (part_001 lines 131-141). -/
def tokenGatePasses (s : HCState) (env : SubmitEnv) : Bool :=
  !s.recaptchaConfig.enabled ||
    (getRecaptchaToken s.recaptchaConfig s.recaptchaInstance env.execToken).1.isSome

/-- A user-level submit attempt.  The form's only submitter is the submit
button, bound `:disabled="submitting"` (part_001 line 287); while disabled,
the browser dispatches no submit event (clicks are inert and implicit
Enter-key submission is suppressed when the default button is disabled), so
the handler does not run and no request is issued. -/
def submitAttempt (p : Props) (s : HCState) (form : FormFields)
    (env : SubmitEnv) : SubmitOutcome :=
  if s.submitting then { state := s, requests := [], formReset := false }
  else submitComment p s form env

/-- `handleReplyClick` (part_001 lines 180-204): reads the affordance's
`data-commentid` and `data-replyto` attributes (null when absent); when the
id is truthy, sets the reply target with the label defaulting to
`Comment #<id>`.  The scroll/focus side effects touch no component state. -/
def handleReplyClick (s : HCState) (commentId replyToText : Option String) :
    HCState :=
  if jsTruthy commentId then
    { s with replyingTo := some {
        id := commentId.getD ""
        replyTo := jsOrString replyToText ("Comment #" ++ commentId.getD "") } }
  else s

/-- `cancelReply` (part_001 lines 207-209). -/
def cancelReply (s : HCState) : HCState :=
  { s with replyingTo := none }

/-- The value Vue renders into the hidden `comment_parent` input:
`:value="replyingTo?.id || 0"` (part_001 line 269), serialized into the DOM
as a string. -/
def hiddenParentValue (replyingTo : Option ReplyTarget) : String :=
  match replyingTo with
  | some r => if r.id.isEmpty then "0" else r.id
  | none => "0"

/-- The form as the DOM presents it in state `s`: the visitor-typed fields
plus the hidden `comment_parent` input bound to the reply target. -/
def formFromDom (s : HCState) (a e c : String) : FormFields :=
  { author_name := a, author_email := e, content := c
    comment_parent := hiddenParentValue s.replyingTo }

/-- The `parent` field of the first (create) request of a submit outcome. -/
def firstRequestParent (o : SubmitOutcome) : Option JsonVal :=
  o.requests.head?.bind fun r => r.body.map CommentData.parent

/-- The `onMounted` hook (part_001 lines 229-232):
`await fetchRecaptchaConfig(); await fetchComments();` — strict sequencing,
the second fetch starts only after the first completes. -/
def mounted (p : Props) (s : HCState) (cr : ConfigResp) (lr : ListResp) :
    HCState × List Request :=
  let f1 := fetchRecaptchaConfig p s cr
  let f2 := fetchComments p f1.1 lr
  (f2.1, f1.2 ++ f2.2)

end HC

namespace VC

/-! ## Simple widget: `src/components/VueComments.vue` -/

/-- Component props (VueComments.vue line 4). -/
structure Props where
  post_id : String
  endpoint : String
  api_key : String
deriving Repr, DecidableEq

/-- A structured comment as declared in the package's type declarations and
rendered by the simple widget (VueComments.vue lines 106-114). -/
structure Comment where
  id : Nat
  author_name : String
  author_email : String
  content : String
  date : String
  parent : Nat
  approved : Option Bool
deriving Repr, DecidableEq

/-- The reactive state (VueComments.vue lines 6-9) plus a log of
`console.error` diagnostics. -/
structure VCState where
  comments : List Comment
  loading : Bool
  submitting : Bool
  message : String
  log : List String
deriving Repr, DecidableEq

/-- The submission payload (VueComments.vue lines 42-47). -/
structure CommentData where
  author_name : String
  author_email : String
  content : String
  parent : JsonVal
deriving Repr, DecidableEq

/-- An HTTP request issued via `fetch` by the simple widget. -/
structure Request where
  method : String
  url : String
  headers : List (String × String)
  body : Option CommentData
deriving Repr, DecidableEq

/-- URL of the list/create endpoint (VueComments.vue lines 15, 51). -/
def commentsUrl (p : Props) : String :=
  p.endpoint ++ "/wp-json/headless-comments/v1/posts/" ++ p.post_id ++ "/comments"

/-- Outcome of awaiting the list fetch: network failure, non-success
status, or a success whose body parses as a comment array or makes
`json()` throw. -/
inductive ListResp where
  | netFail
  | notOk (status : Nat) (statusText : String)
  | ok (body : Option (List Comment))
deriving Repr, DecidableEq

/-- `fetchComments` (VueComments.vue lines 12-33): note this variant does
not set `loading` back to true on entry; it only clears it in `finally`. -/
def fetchComments (p : Props) (s : VCState) (r : ListResp) :
    VCState × List Request :=
  let req : Request :=
    { method := "GET", url := commentsUrl p
      headers := [("X-API-Key", p.api_key)], body := none }
  let s2 : VCState :=
    match r with
    | .ok (some body) => { s with comments := body }
    | .ok none => { s with log := s.log ++ ["Error fetching comments:"] }
    | .notOk status statusText =>
        { s with log := s.log ++
            ["Failed to fetch comments: " ++ toString status ++ " " ++ statusText] }
    | .netFail => { s with log := s.log ++ ["Error fetching comments:"] }
  ({ s2 with loading := false }, [req])

/-- Outcome of awaiting the create fetch (same shape as the full
widget's). -/
inductive CreateResp where
  | netFail
  | ok (body : Option HC.SubmitResult)
  | notOk (body : Option HC.ErrorBody)
deriving Repr, DecidableEq

/-- Environment of one `submitComment` call of the simple widget. -/
structure SubmitEnv where
  createResp : CreateResp
  listResp : ListResp
deriving Repr, DecidableEq

/-- Form control values (VueComments.vue lines 130-150); `parent` comes
from a hidden input with the constant value `"0"`. -/
structure FormFields where
  author_name : String
  author_email : String
  content : String
  parent : String
deriving Repr, DecidableEq

/-- Result of one `submitComment` call of the simple widget. -/
structure SubmitOutcome where
  state : VCState
  requests : List Request
  formReset : Bool
deriving Repr, DecidableEq

/-- `submitComment` (VueComments.vue lines 36-81): no bot mitigation and no
reply target; otherwise the same shape as the full widget's handler. -/
def submitComment (p : Props) (s0 : VCState) (form : FormFields)
    (env : SubmitEnv) : SubmitOutcome :=
  let s : VCState := { s0 with submitting := true, message := "" }
  let cd : CommentData :=
    { author_name := form.author_name, author_email := form.author_email
      content := form.content, parent := HC.parentField form.parent }
  let req : Request :=
    { method := "POST", url := commentsUrl p
      headers := [("Content-Type", "application/json"), ("X-API-Key", p.api_key)]
      body := some cd }
  match env.createResp with
  | .netFail =>
      { state := { s with
          message := HC.submitErrorText
          log := s.log ++ ["Submit error:"]
          submitting := false }
        requests := [req]
        formReset := false }
  | .ok none =>
      { state := { s with
          message := HC.submitErrorText
          log := s.log ++ ["Submit error:"]
          submitting := false }
        requests := [req]
        formReset := false }
  | .ok (some result) =>
      let s1 : VCState :=
        { s with message := jsOrString result.message HC.submitSuccessText }
      if result.approved then
        let fr := fetchComments p s1 env.listResp
        { state := { fr.1 with submitting := false }
          requests := req :: fr.2
          formReset := true }
      else
        { state := { s1 with submitting := false }
          requests := [req]
          formReset := true }
  | .notOk none =>
      { state := { s with
          message := HC.submitErrorText
          log := s.log ++ ["Submit error:"]
          submitting := false }
        requests := [req]
        formReset := false }
  | .notOk (some err) =>
      { state := { s with
          message := jsOrString err.message HC.submitErrorText
          submitting := false }
        requests := [req]
        formReset := false }

end VC

/-! ## Concrete sample values (used by witnesses and counterexamples) -/

/-- A sample prop set for the full widget. -/
def sampleProps : HC.Props :=
  { post_id := "7", endpoint := "https://example.com", api_key := "k"
    order := "DESC" }

/-- A sample idle state with bot mitigation disabled. -/
def sampleState : HC.HCState :=
  { commentsData := none, loading := false, submitting := false, message := ""
    replyingTo := none, recaptchaConfig := { enabled := false, site_key := "" }
    recaptchaInstance := false, log := [] }

/-- A sample idle state with bot mitigation enabled and the client loaded. -/
def sampleStateRec : HC.HCState :=
  { sampleState with
    recaptchaConfig := { enabled := true, site_key := "sk" }
    recaptchaInstance := true }

/-- A sample top-level form submission. -/
def sampleForm : HC.FormFields :=
  { author_name := "Jane", author_email := "jane@example.com"
    content := "Hello", comment_parent := "0" }

/-- A sample environment: no token, create succeeds unapproved, list idle. -/
def sampleEnv : HC.SubmitEnv :=
  { execToken := none
    createResp := .ok (some { message := some "Held for moderation.", approved := false })
    listResp := .ok none }

/-! ## Claims -/

/-- C1: while a submission is in flight (the `submitting` flag is true), a
further user-level submit attempt is a no-op: the submit button — the
form's only submitter — is bound `:disabled="submitting"`, so no submit
event fires, no second create request is sent, and the state is
unchanged. -/
theorem submit_noop_while_pending (p : HC.Props) (s : HC.HCState)
    (form : HC.FormFields) (env : HC.SubmitEnv) (h : s.submitting = true) :
    HC.submitAttempt p s form env =
      { state := s, requests := [], formReset := false } := by
  simp [HC.submitAttempt, h]

/-- Witness for C1 at a concrete in-flight state. -/
theorem submit_noop_while_pending_witness :
    ({ sampleState with submitting := true } : HC.HCState).submitting = true ∧
    HC.submitAttempt sampleProps { sampleState with submitting := true }
        sampleForm sampleEnv =
      { state := { sampleState with submitting := true }
        requests := [], formReset := false } :=
  ⟨rfl, submit_noop_while_pending sampleProps
    { sampleState with submitting := true } sampleForm sampleEnv rfl⟩

/-- C2: when bot mitigation is enabled and token acquisition yields no
token, `submitComment` issues no request at all, does not reset the form,
and the resulting state is exactly the starting one with the message set
to the fixed local failure text (the `submitting` flag, false before the
attempt, is false again) and the log extended by precisely the console
diagnostics of the token acquisition — nothing, or the one
`'Error getting reCAPTCHA token:'` line from the `execute()` catch
branch. -/
theorem submit_token_failure_aborts (p : HC.Props) (s : HC.HCState)
    (form : HC.FormFields) (env : HC.SubmitEnv)
    (hsub : s.submitting = false)
    (hen : s.recaptchaConfig.enabled = true)
    (htok : (HC.getRecaptchaToken s.recaptchaConfig s.recaptchaInstance
      env.execToken).1 = none) :
    HC.submitComment p s form env =
      { state := { s with
          message := HC.recaptchaFailText
          log := s.log ++ (HC.getRecaptchaToken s.recaptchaConfig
            s.recaptchaInstance env.execToken).2 }
        requests := [], formReset := false } ∧
    ((HC.getRecaptchaToken s.recaptchaConfig s.recaptchaInstance
        env.execToken).2 = [] ∨
     (HC.getRecaptchaToken s.recaptchaConfig s.recaptchaInstance
        env.execToken).2 = ["Error getting reCAPTCHA token:"]) := by
  obtain ⟨cD, l, sub, msg, rT, cfg, inst, lg⟩ := s
  simp only [HC.HCState.submitting] at hsub
  subst hsub
  simp only [HC.HCState.recaptchaConfig, HC.HCState.recaptchaInstance]
    at hen htok ⊢
  constructor
  · simp [HC.submitComment, hen, htok]
  · unfold HC.getRecaptchaToken
    split
    · left
      rfl
    · rcases env with ⟨etok, cresp, lresp⟩
      cases etok <;> simp

/-- Witness for C2: enabled config, loaded client, but the execute call
throws — no request, the fixed failure message, and exactly the one
console diagnostic appended to the log. -/
theorem submit_token_failure_aborts_witness :
    sampleStateRec.submitting = false ∧
    sampleStateRec.recaptchaConfig.enabled = true ∧
    (HC.getRecaptchaToken sampleStateRec.recaptchaConfig
      sampleStateRec.recaptchaInstance sampleEnv.execToken).1 = none ∧
    HC.submitComment sampleProps sampleStateRec sampleForm sampleEnv =
      { state := { sampleStateRec with
          message := HC.recaptchaFailText
          log := sampleStateRec.log ++ (HC.getRecaptchaToken
            sampleStateRec.recaptchaConfig sampleStateRec.recaptchaInstance
            sampleEnv.execToken).2 }
        requests := [], formReset := false } :=
  ⟨rfl, rfl, rfl,
    (submit_token_failure_aborts sampleProps sampleStateRec sampleForm
      sampleEnv rfl rfl rfl).1⟩

/-- All state fields other than `loading` and `log` agree between `s`
and `s2`. -/
def onlyLoadingAndLogChanged (s s2 : HC.HCState) : Prop :=
  s2.commentsData = s.commentsData ∧ s2.submitting = s.submitting ∧
  s2.message = s.message ∧ s2.replyingTo = s.replyingTo ∧
  s2.recaptchaConfig = s.recaptchaConfig ∧
  s2.recaptchaInstance = s.recaptchaInstance

/-- C5: a `fetchComments` call that ends in a non-success response or a
network failure leaves `commentsData` — and every other field except the
loading flag and the log — unchanged; the loading flag ends false and one
diagnostic line is appended to the log. -/
theorem fetch_failure_preserves_state (p : HC.Props) (s : HC.HCState)
    (status : Nat) (statusText : String) :
    (onlyLoadingAndLogChanged s (HC.fetchComments p s (.notOk status statusText)).1 ∧
     (HC.fetchComments p s (.notOk status statusText)).1.loading = false ∧
     (HC.fetchComments p s (.notOk status statusText)).1.log =
       s.log ++ ["Failed to fetch comments: " ++ toString status ++ " " ++ statusText]) ∧
    (onlyLoadingAndLogChanged s (HC.fetchComments p s .netFail).1 ∧
     (HC.fetchComments p s .netFail).1.loading = false ∧
     (HC.fetchComments p s .netFail).1.log =
       s.log ++ ["Error fetching comments:"]) := by
  simp [HC.fetchComments, onlyLoadingAndLogChanged]

/-- C7: on mount the widget issues exactly the config request followed by
the list request — for every outcome of either fetch, the trace is the
config fetch strictly before the comment fetch, with no other requests in
between (`await` sequencing is strict sequential composition in this
embedding). -/
theorem mounted_config_before_comments (p : HC.Props) (s : HC.HCState)
    (cr : HC.ConfigResp) (lr : HC.ListResp) :
    (HC.mounted p s cr lr).2 = [HC.configRequest p, HC.listRequest p] := by
  simp [HC.mounted, HC.fetchRecaptchaConfig, HC.fetchComments]

/-- C8: every `fetchComments` call issues exactly one GET whose URL carries
the order parameter and whose headers carry the API key; a validator-
accepted order prop uppercases to `ASC` or `DESC`, and an unsupplied order
prop defaults to `DESC`. -/
theorem list_request_order_and_key (p : HC.Props) (s : HC.HCState)
    (r : HC.ListResp) :
    (HC.fetchComments p s r).2 = [HC.listRequest p] ∧
    (HC.listRequest p).method = "GET" ∧
    (HC.listRequest p).url =
      HC.createUrl p ++ "?order=" ++ HC.orderParam p.order ∧
    (HC.listRequest p).headers = [("X-API-Key", p.api_key)] ∧
    (HC.orderValidator p.order = true →
      HC.orderParam p.order = "ASC" ∨ HC.orderParam p.order = "DESC") ∧
    HC.orderParam (HC.vueOrderProp none) = "DESC" := by
  refine ⟨by simp [HC.fetchComments], rfl, rfl, rfl, ?_, by decide⟩
  intro h
  simp only [HC.orderValidator, Bool.or_eq_true, beq_iff_eq] at h
  by_cases he : p.order.isEmpty
  · right
    simp [HC.orderParam, he]
  · rcases h with h | h
    · left
      simp [HC.orderParam, he, h]
    · right
      simp [HC.orderParam, he, h]

/-- Witness for C8: with the sample props (order supplied as `DESC`), the
validator accepts and the order parameter is `DESC`; the fetch issues the
single expected request. -/
theorem list_request_order_and_key_witness :
    HC.orderValidator sampleProps.order = true ∧
    (HC.orderParam sampleProps.order = "ASC" ∨
      HC.orderParam sampleProps.order = "DESC") ∧
    (HC.fetchComments sampleProps sampleState .netFail).2 =
      [HC.listRequest sampleProps] :=
  ⟨by decide,
    (list_request_order_and_key sampleProps sampleState .netFail).2.2.2.2.1
      (by decide),
    (list_request_order_and_key sampleProps sampleState .netFail).1⟩

/-- Helper: `submitSend` ends with `submitting = false` on every branch
(the `finally` clause). -/
theorem submitSend_clears_submitting (p : HC.Props) (s : HC.HCState)
    (cd : HC.CommentData) (env : HC.SubmitEnv) :
    (HC.submitSend p s cd env).state.submitting = false := by
  rcases env with ⟨tok, cresp, lresp⟩
  cases cresp with
  | netFail => simp [HC.submitSend]
  | ok b =>
      cases b with
      | none => simp [HC.submitSend]
      | some result =>
          simp only [HC.submitSend]
          split <;> simp
  | notOk b => cases b <;> simp [HC.submitSend]

/-- Helper: `submitComment` ends with `submitting = false` on every exit
path, including the token-gate abort. -/
theorem submitComment_clears_submitting (p : HC.Props) (s : HC.HCState)
    (form : HC.FormFields) (env : HC.SubmitEnv) :
    (HC.submitComment p s form env).state.submitting = false := by
  simp only [HC.submitComment]
  split
  · split
    · apply submitSend_clears_submitting
    · rfl
  · apply submitSend_clears_submitting

/-- Helper: the simple widget's `submitComment` also ends with
`submitting = false` on every branch. -/
theorem vc_submitComment_clears_submitting (q : VC.Props) (t : VC.VCState)
    (vform : VC.FormFields) (venv : VC.SubmitEnv) :
    (VC.submitComment q t vform venv).state.submitting = false := by
  rcases venv with ⟨cresp, lresp⟩
  cases cresp with
  | netFail => simp [VC.submitComment]
  | ok b =>
      cases b with
      | none => simp [VC.submitComment]
      | some result =>
          simp only [VC.submitComment]
          split <;> simp
  | notOk b => cases b <;> simp [VC.submitComment]

/-- C9: both variants restore their flags on every exit path — every
completed `fetchComments` leaves `loading = false` (its `finally` clause),
and every completed `submitComment` leaves `submitting = false` (its
`finally` clause, plus the explicit clear on the token-gate abort),
regardless of success, non-success status, parse failure, or network
failure. -/
theorem flags_restored_on_every_exit (p : HC.Props) (s : HC.HCState)
    (r : HC.ListResp) (form : HC.FormFields) (env : HC.SubmitEnv)
    (q : VC.Props) (t : VC.VCState) (vr : VC.ListResp)
    (vform : VC.FormFields) (venv : VC.SubmitEnv) :
    (HC.fetchComments p s r).1.loading = false ∧
    (HC.submitComment p s form env).state.submitting = false ∧
    (VC.fetchComments q t vr).1.loading = false ∧
    (VC.submitComment q t vform venv).state.submitting = false :=
  ⟨by simp [HC.fetchComments],
    submitComment_clears_submitting p s form env,
    by simp [VC.fetchComments],
    vc_submitComment_clears_submitting q t vform venv⟩

/-- Helper: when the token gate passes, `submitComment` reduces to
`submitSend` on the payload built from the form, with some token value
(none when bot mitigation is disabled). -/
theorem submitComment_gate_passes (p : HC.Props) (s : HC.HCState)
    (form : HC.FormFields) (env : HC.SubmitEnv)
    (hgate : HC.tokenGatePasses s env = true) :
    ∃ tok : Option String,
      HC.submitComment p s form env =
        HC.submitSend p { s with submitting := true, message := "" }
          { author_name := form.author_name, author_email := form.author_email
            content := form.content, parent := HC.parentField form.comment_parent
            recaptcha_token := tok } env := by
  by_cases hen : s.recaptchaConfig.enabled
  · have hsome : ((HC.getRecaptchaToken s.recaptchaConfig s.recaptchaInstance
        env.execToken).1).isSome = true := by
      simpa [HC.tokenGatePasses, hen] using hgate
    obtain ⟨tok, htok⟩ := Option.isSome_iff_exists.mp hsome
    have hlog : (HC.getRecaptchaToken s.recaptchaConfig s.recaptchaInstance
        env.execToken).2 = [] := by
      rcases henv : env.execToken with _ | t
      · rw [henv] at htok
        unfold HC.getRecaptchaToken at htok
        split at htok
        · simp at htok
        · simp at htok
      · unfold HC.getRecaptchaToken
        split
        · rfl
        · rfl
    refine ⟨some tok, ?_⟩
    simp [HC.submitComment, hen, htok, hlog]
  · have hen' : s.recaptchaConfig.enabled = false := by
      simpa using hen
    exact ⟨none, by simp [HC.submitComment, hen']⟩

/-- Number of list-endpoint GETs in a request trace. -/
def countListFetches (p : HC.Props) (reqs : List HC.Request) : Nat :=
  (reqs.filter fun r => r.method == "GET" && r.url == HC.listUrl p).length

/-- C3: a submission whose create response is successful (and parses)
refetches the comment list exactly once if and only if the result's
`approved` field is truthy; when `approved` is false or omitted there is
no refetch and the server-supplied (non-empty) confirmation message is
displayed. -/
theorem refetch_iff_approved (p : HC.Props) (s : HC.HCState)
    (form : HC.FormFields) (env : HC.SubmitEnv) (result : HC.SubmitResult)
    (hgate : HC.tokenGatePasses s env = true)
    (hresp : env.createResp = .ok (some result)) :
    countListFetches p (HC.submitComment p s form env).requests =
      (if result.approved then 1 else 0) ∧
    (result.approved = false → ∀ m, result.message = some m →
      m.isEmpty = false →
      (HC.submitComment p s form env).state.message = m) := by
  obtain ⟨tok, heq⟩ := submitComment_gate_passes p s form env hgate
  rw [heq]
  constructor
  · simp only [HC.submitSend, hresp]
    split
    · simp [countListFetches, HC.createRequest, HC.fetchComments,
        HC.listRequest, *]
    · simp [countListFetches, HC.createRequest, *]
  · intro hap m hm hne
    simp [HC.submitSend, hresp, hap, jsOrString, hm, hne]

/-- Witness for C3 at concrete inputs: an unapproved response with a
non-empty server message yields no refetch and displays that message. -/
theorem refetch_iff_approved_witness :
    HC.tokenGatePasses sampleState sampleEnv = true ∧
    sampleEnv.createResp =
      .ok (some { message := some "Held for moderation.", approved := false }) ∧
    countListFetches sampleProps
      (HC.submitComment sampleProps sampleState sampleForm sampleEnv).requests =
      (if ({ message := some "Held for moderation.", approved := false } :
          HC.SubmitResult).approved then 1 else 0) ∧
    (HC.submitComment sampleProps sampleState sampleForm sampleEnv).state.message =
      "Held for moderation." :=
  ⟨rfl, rfl,
    (refetch_iff_approved sampleProps sampleState sampleForm sampleEnv
      { message := some "Held for moderation.", approved := false } rfl rfl).1,
    (refetch_iff_approved sampleProps sampleState sampleForm sampleEnv
      { message := some "Held for moderation.", approved := false } rfl rfl).2
      rfl "Held for moderation." rfl rfl⟩

/-- Environment for C10: the create endpoint answers a non-success status
whose body is not valid JSON, so `response.json()` throws. -/
def envBadJson : HC.SubmitEnv :=
  { execToken := none, createResp := .notOk none, listResp := .netFail }

/-- C10: a non-success create response whose body is not valid JSON does
not crash the widget: `json()` throws, the catch branch sets the generic
fallback message, the form is not reset, and the comment data and reply
target are untouched (the handler is a total function in this embedding —
every such run completes in a well-defined state). -/
theorem invalid_error_body_generic_fallback (p : HC.Props) (s : HC.HCState)
    (form : HC.FormFields) (env : HC.SubmitEnv)
    (hgate : HC.tokenGatePasses s env = true)
    (hresp : env.createResp = .notOk none) :
    (HC.submitComment p s form env).state.message = HC.submitErrorText ∧
    (HC.submitComment p s form env).formReset = false ∧
    (HC.submitComment p s form env).state.commentsData = s.commentsData ∧
    (HC.submitComment p s form env).state.replyingTo = s.replyingTo ∧
    (HC.submitComment p s form env).state.submitting = false := by
  obtain ⟨tok, heq⟩ := submitComment_gate_passes p s form env hgate
  rw [heq]
  simp [HC.submitSend, hresp]

/-- Witness for C10 at concrete inputs. -/
theorem invalid_error_body_generic_fallback_witness :
    HC.tokenGatePasses sampleState envBadJson = true ∧
    envBadJson.createResp = .notOk none ∧
    (HC.submitComment sampleProps sampleState sampleForm envBadJson).state.message =
      HC.submitErrorText ∧
    (HC.submitComment sampleProps sampleState sampleForm envBadJson).formReset =
      false :=
  ⟨rfl, rfl,
    (invalid_error_body_generic_fallback sampleProps sampleState sampleForm
      envBadJson rfl rfl).1,
    (invalid_error_body_generic_fallback sampleProps sampleState sampleForm
      envBadJson rfl rfl).2.1⟩

/-- Environment for the C4 counterexample: a non-success response whose
JSON body contains the message field, with the empty string as value. -/
def envEmptyMsg : HC.SubmitEnv :=
  { execToken := none, createResp := .notOk (some { message := some "" })
    listResp := .netFail }

/-- C4 counterexample: the claim promises the server message verbatim for
every non-success body containing a `message` field, but
`error.message || fallback` treats the empty string as falsy: for the body
`{message: ""}` the widget displays the generic fallback, not the empty
server message verbatim. -/
theorem error_message_not_verbatim_when_empty :
    (HC.submitComment sampleProps sampleState sampleForm envEmptyMsg).state.message =
      HC.submitErrorText ∧
    HC.submitErrorText ≠ "" :=
  ⟨rfl, by decide⟩

/-- C4 (amended): on a non-success response whose body parses, a non-empty
server message is displayed verbatim; a missing (or empty) message field
yields the generic fallback; in either case the form fields are not
reset. -/
theorem error_message_verbatim_when_nonempty (p : HC.Props) (s : HC.HCState)
    (form : HC.FormFields) (env : HC.SubmitEnv) (err : HC.ErrorBody)
    (hgate : HC.tokenGatePasses s env = true)
    (hresp : env.createResp = .notOk (some err)) :
    (∀ m, err.message = some m → m.isEmpty = false →
      (HC.submitComment p s form env).state.message = m) ∧
    ((err.message = none ∨ err.message = some "") →
      (HC.submitComment p s form env).state.message = HC.submitErrorText) ∧
    (HC.submitComment p s form env).formReset = false := by
  obtain ⟨tok, heq⟩ := submitComment_gate_passes p s form env hgate
  rw [heq]
  refine ⟨?_, ?_, ?_⟩
  · intro m hm hne
    simp [HC.submitSend, hresp, jsOrString, hm, hne]
  · have hempty : ("" : String).isEmpty = true := by decide
    rintro (hm | hm) <;> simp [HC.submitSend, hresp, jsOrString, hm, hempty]
  · simp [HC.submitSend, hresp]

/-- Witness for the amended C4: the duplicate-comment body from the spec's
own example is displayed verbatim and the form is not reset. -/
theorem error_message_verbatim_when_nonempty_witness :
    HC.tokenGatePasses sampleState
      { execToken := none
        createResp := .notOk (some { message := some "Duplicate comment detected" })
        listResp := .netFail } = true ∧
    (HC.submitComment sampleProps sampleState sampleForm
        { execToken := none
          createResp := .notOk (some { message := some "Duplicate comment detected" })
          listResp := .netFail }).state.message = "Duplicate comment detected" ∧
    (HC.submitComment sampleProps sampleState sampleForm
        { execToken := none
          createResp := .notOk (some { message := some "Duplicate comment detected" })
          listResp := .netFail }).formReset = false :=
  ⟨rfl,
    (error_message_verbatim_when_nonempty sampleProps sampleState sampleForm
      { execToken := none
        createResp := .notOk (some { message := some "Duplicate comment detected" })
        listResp := .netFail }
      { message := some "Duplicate comment detected" } rfl rfl).1
      "Duplicate comment detected" rfl rfl,
    (error_message_verbatim_when_nonempty sampleProps sampleState sampleForm
      { execToken := none
        createResp := .notOk (some { message := some "Duplicate comment detected" })
        listResp := .netFail }
      { message := some "Duplicate comment detected" } rfl rfl).2.2⟩

/-- Helper: every `submitSend` outcome has the create request first, and
that request's payload carries the parent field built from the form. -/
theorem firstRequestParent_submitSend (p : HC.Props) (s : HC.HCState)
    (cd : HC.CommentData) (env : HC.SubmitEnv) :
    HC.firstRequestParent (HC.submitSend p s cd env) = some cd.parent := by
  rcases env with ⟨tok, cresp, lresp⟩
  cases cresp with
  | netFail => simp [HC.submitSend, HC.firstRequestParent, HC.createRequest]
  | ok b =>
      cases b with
      | none => simp [HC.submitSend, HC.firstRequestParent, HC.createRequest]
      | some result =>
          simp only [HC.submitSend]
          split <;> simp [HC.firstRequestParent, HC.createRequest]
  | notOk b =>
      cases b <;> simp [HC.submitSend, HC.firstRequestParent, HC.createRequest]

/-- C6 counterexample: after cancelling a reply, the next submission's
parent field is the string `"0"` — the hidden input's value is serialized
through the DOM and read back by `FormData` as a string, and
`formData.get('comment_parent') || 0` keeps the truthy string `"0"` — so
it is not equal to the number `0` the claim asserts. -/
theorem cancel_parent_not_number_zero :
    HC.firstRequestParent
      (HC.submitComment sampleProps
        (HC.cancelReply
          (HC.handleReplyClick sampleState (some "42") (some "Reply to Jane")))
        (HC.formFromDom
          (HC.cancelReply
            (HC.handleReplyClick sampleState (some "42") (some "Reply to Jane")))
          "Jane" "jane@example.com" "Hello")
        sampleEnv) = some (JsonVal.str "0") ∧
    JsonVal.str "0" ≠ JsonVal.num 0 :=
  ⟨rfl, by decide⟩

/-- C6 (amended): clicking a reply affordance carrying comment id `"42"`
and label `"Reply to Jane"` sets the reply target to exactly that pair and
makes the next submission's parent field the string `"42"`; cancelling
clears the reply target and makes the next submission's parent field the
string `"0"` (the hidden input's value serialized as a string, not the
number 0). -/
theorem reply_click_and_cancel_set_parent (p : HC.Props) (s : HC.HCState)
    (env : HC.SubmitEnv) (a e c : String)
    (hgate : HC.tokenGatePasses s env = true) :
    (HC.handleReplyClick s (some "42") (some "Reply to Jane")).replyingTo =
      some { id := "42", replyTo := "Reply to Jane" } ∧
    HC.firstRequestParent
      (HC.submitComment p
        (HC.handleReplyClick s (some "42") (some "Reply to Jane"))
        (HC.formFromDom
          (HC.handleReplyClick s (some "42") (some "Reply to Jane")) a e c)
        env) = some (JsonVal.str "42") ∧
    (HC.cancelReply
      (HC.handleReplyClick s (some "42") (some "Reply to Jane"))).replyingTo =
      none ∧
    HC.firstRequestParent
      (HC.submitComment p
        (HC.cancelReply
          (HC.handleReplyClick s (some "42") (some "Reply to Jane")))
        (HC.formFromDom
          (HC.cancelReply
            (HC.handleReplyClick s (some "42") (some "Reply to Jane"))) a e c)
        env) = some (JsonVal.str "0") := by
  have h42 : ("42" : String).isEmpty = false := by decide
  have h0 : ("0" : String).isEmpty = false := by decide
  have hRJ : ("Reply to Jane" : String).isEmpty = false := by decide
  have hrt :
      (HC.handleReplyClick s (some "42") (some "Reply to Jane")).replyingTo =
        some { id := "42", replyTo := "Reply to Jane" } := by
    simp [HC.handleReplyClick, jsTruthy, jsOrString, h42, hRJ]
  have hcfg :
      (HC.handleReplyClick s (some "42") (some "Reply to Jane")).recaptchaConfig =
        s.recaptchaConfig := by
    simp [HC.handleReplyClick, jsTruthy, h42]
  have hinst :
      (HC.handleReplyClick s (some "42") (some "Reply to Jane")).recaptchaInstance =
        s.recaptchaInstance := by
    simp [HC.handleReplyClick, jsTruthy, h42]
  have hg1 : HC.tokenGatePasses
      (HC.handleReplyClick s (some "42") (some "Reply to Jane")) env = true := by
    unfold HC.tokenGatePasses at hgate ⊢
    rw [hcfg, hinst]
    exact hgate
  have hg2 : HC.tokenGatePasses
      (HC.cancelReply
        (HC.handleReplyClick s (some "42") (some "Reply to Jane"))) env = true := by
    unfold HC.tokenGatePasses at hgate ⊢
    simp only [HC.cancelReply]
    rw [hcfg, hinst]
    exact hgate
  refine ⟨hrt, ?_, by simp [HC.cancelReply], ?_⟩
  · obtain ⟨tok, heq⟩ := submitComment_gate_passes p
      (HC.handleReplyClick s (some "42") (some "Reply to Jane"))
      (HC.formFromDom
        (HC.handleReplyClick s (some "42") (some "Reply to Jane")) a e c)
      env hg1
    rw [heq, firstRequestParent_submitSend]
    simp [HC.formFromDom, HC.hiddenParentValue, HC.parentField, hrt, h42]
  · obtain ⟨tok, heq⟩ := submitComment_gate_passes p
      (HC.cancelReply
        (HC.handleReplyClick s (some "42") (some "Reply to Jane")))
      (HC.formFromDom
        (HC.cancelReply
          (HC.handleReplyClick s (some "42") (some "Reply to Jane"))) a e c)
      env hg2
    rw [heq, firstRequestParent_submitSend]
    simp [HC.formFromDom, HC.hiddenParentValue, HC.parentField,
      HC.cancelReply, h0]

/-- Witness for the amended C6 at concrete inputs. -/
theorem reply_click_and_cancel_set_parent_witness :
    HC.tokenGatePasses sampleState sampleEnv = true ∧
    (HC.handleReplyClick sampleState (some "42") (some "Reply to Jane")).replyingTo =
      some { id := "42", replyTo := "Reply to Jane" } ∧
    HC.firstRequestParent
      (HC.submitComment sampleProps
        (HC.handleReplyClick sampleState (some "42") (some "Reply to Jane"))
        (HC.formFromDom
          (HC.handleReplyClick sampleState (some "42") (some "Reply to Jane"))
          "Jane" "jane@example.com" "Hello")
        sampleEnv) = some (JsonVal.str "42") :=
  ⟨rfl,
    (reply_click_and_cancel_set_parent sampleProps sampleState sampleEnv
      "Jane" "jane@example.com" "Hello" rfl).1,
    (reply_click_and_cancel_set_parent sampleProps sampleState sampleEnv
      "Jane" "jane@example.com" "Hello" rfl).2.1⟩
